import Mathlib

/-!
Verification of the camera wrapper module (`src/core/camera.rs`).

The module is a thin adapter between generic wrapper camera structs
(`Camera3D<T>`, `Camera2D<T>`) and the native library's fixed-layout
(32-bit float) camera structs.  The claims instantiate the generic
numeric type at the native 32-bit float `f32`.

Since the wrapper performs no floating-point arithmetic — every operation
only stores, copies or reinterprets field values — an `f32` value is
represented here by its 32-bit pattern.  Both `transmute` and explicit
field-by-field copies preserve bit patterns exactly, so this
representation is faithful for every property considered below.

The `ffi` and `consts` modules and the `RaylibHandle` type belong to this
repository but are not under `src/`; those parts are modelled from the
spec, as marked in their doc comments.
-/

/-- A 32-bit float represented by its bit pattern.  The wrapper performs no
arithmetic on the numeric type: values are only stored and copied, so the
bit-pattern representation is exact.  Arbitrary bit patterns are allowed,
including those of NaN, infinities and negative values. -/
structure F32 where
  bits : Nat
deriving DecidableEq, Repr

/-- Bit pattern of `+0.0` as a 32-bit float (all bits zero). -/
def F32.zero : F32 := ⟨0⟩

/-- Bit pattern of `1.0` as a 32-bit float (`0x3F800000`). -/
def F32.one : F32 := ⟨0x3F800000⟩

/-- Bit pattern of the canonical quiet NaN 32-bit float (`0x7FC00000`). -/
def F32.nanBits : F32 := ⟨0x7FC00000⟩

/-- Three-component vector (`nalgebra::Vec3<T>`): components laid out in
declaration order. -/
structure Vec3 (T : Type) where
  x : T
  y : T
  z : T
deriving DecidableEq, Repr

/-- Two-component vector (`nalgebra::Vec2<T>`). -/
structure Vec2 (T : Type) where
  x : T
  y : T
deriving DecidableEq, Repr

/-- The zero 2D vector (all components the `+0.0` bit pattern), the value of
the derived `Default` for `nalgebra::Vec2<f32>`. -/
def Vec2.zeroF32 : Vec2 F32 := ⟨F32.zero, F32.zero⟩

/-- Reinterpretation of a 32-bit pattern (given as a natural number below
`2^32`) as a signed 32-bit integer, as performed by an `as i32` cast or by
reading 4 bytes of memory as an `i32`. -/
def u32AsI32 (b : Nat) : Int :=
  if b < 2 ^ 31 then Int.ofNat b else Int.ofNat b - 2 ^ 32

namespace ffi

/-- Projection-kind enumeration of the native library.  Modelled from the
spec: the `ffi` module is not under `src/`; the spec describes the camera
mode and key enumerations as integers, with the two projection kinds
perspective and orthographic. -/
inductive CameraType where
  | CAMERA_PERSPECTIVE
  | CAMERA_ORTHOGRAPHIC
deriving DecidableEq, Repr

/-- Discriminant of the projection-kind enum, the value produced by the
`as u32` cast (also its in-memory 32-bit representation). -/
def CameraType.toU32 : CameraType → Nat
  | .CAMERA_PERSPECTIVE => 0
  | .CAMERA_ORTHOGRAPHIC => 1

/-- Reading a stored 32-bit tag back as the projection-kind enum, as the
`transmute` of the enum-typed field does: defined exactly on the declared
discriminants, undefined behaviour (modelled as `none`) on every other
value. -/
def CameraType.fromInt? (n : Int) : Option CameraType :=
  if n = 0 then some .CAMERA_PERSPECTIVE
  else if n = 1 then some .CAMERA_ORTHOGRAPHIC
  else none

/-- Native fixed-layout 3D camera struct.  Modelled from the spec: the `ffi`
module is not under `src/`; field order and types follow the spec's layout
contract and the field-by-field conversion at `src/core/camera.rs:44-52`:
three 32-bit float vectors `position`, `target`, `up`, then `fovy : f32`,
then the projection-kind tag stored as an `i32`. -/
structure Camera3D where
  position : Vec3 F32
  target : Vec3 F32
  up : Vec3 F32
  fovy : F32
  type_ : Int
deriving DecidableEq, Repr

/-- Native fixed-layout 2D camera struct.  Modelled from the spec: the `ffi`
module is not under `src/`; field order follows the field-by-field
conversion at `src/core/camera.rs:89-96`: two 32-bit float vectors
`offset`, `target`, then `rotation : f32` and `zoom : f32`. -/
structure Camera2D where
  offset : Vec2 F32
  target : Vec2 F32
  rotation : F32
  zoom : F32
deriving DecidableEq, Repr

/-- One call into a native camera entry point, recording the arguments as
passed across the boundary. -/
inductive NativeCall where
  | UpdateCamera (camera : Camera3D)
  | SetCameraMode (camera : Camera3D) (mode : Int)
  | SetCameraPanControl (key : Int)
  | SetCameraAltControl (key : Int)
  | SetCameraSmoothZoomControl (key : Int)
  | SetCameraMoveControls (front back right left up down : Int)
deriving DecidableEq, Repr

/-- Observable state of the native camera subsystem.  Modelled from the
spec: the native library stores the selected mode together with the camera
it was configured with, and the five key-binding configurations, all as
integers; `log` records every entry-point call in order. -/
structure NativeState where
  cameraMode : Int
  modeCamera : Camera3D
  panControl : Int
  altControl : Int
  smoothZoomControl : Int
  moveFront : Int
  moveBack : Int
  moveRight : Int
  moveLeft : Int
  moveUp : Int
  moveDown : Int
  log : List NativeCall

/-- Native `SetCameraMode` entry point.  Modelled from the spec: stores the
selected mode and camera in the native state. -/
def SetCameraMode (s : NativeState) (camera : Camera3D) (mode : Int) : NativeState :=
  { s with cameraMode := mode, modeCamera := camera,
           log := s.log ++ [NativeCall.SetCameraMode camera mode] }

/-- Native `SetCameraPanControl` entry point.  Modelled from the spec:
stores the pan key binding. -/
def SetCameraPanControl (s : NativeState) (key : Int) : NativeState :=
  { s with panControl := key, log := s.log ++ [NativeCall.SetCameraPanControl key] }

/-- Native `SetCameraAltControl` entry point.  Modelled from the spec:
stores the alt key binding. -/
def SetCameraAltControl (s : NativeState) (key : Int) : NativeState :=
  { s with altControl := key, log := s.log ++ [NativeCall.SetCameraAltControl key] }

/-- Native `SetCameraSmoothZoomControl` entry point.  Modelled from the
spec: stores the smooth-zoom key binding. -/
def SetCameraSmoothZoomControl (s : NativeState) (key : Int) : NativeState :=
  { s with smoothZoomControl := key,
           log := s.log ++ [NativeCall.SetCameraSmoothZoomControl key] }

/-- Native `SetCameraMoveControls` entry point.  Modelled from the spec:
stores the six movement key bindings. -/
def SetCameraMoveControls (s : NativeState)
    (front back right left up down : Int) : NativeState :=
  { s with moveFront := front, moveBack := back, moveRight := right,
           moveLeft := left, moveUp := up, moveDown := down,
           log := s.log ++ [NativeCall.SetCameraMoveControls front back right left up down] }

/-- Native `UpdateCamera` entry point.  Modelled from the spec: mutates the
camera based on current input state and configured mode.  Its behaviour is
an arbitrary parameter `env` (a function of the native state and the camera
handed over), so theorems below quantify over every possible behaviour of
the routine. -/
def UpdateCamera (env : NativeState → Camera3D → Camera3D)
    (s : NativeState) (camera : Camera3D) : NativeState × Camera3D :=
  ({ s with log := s.log ++ [NativeCall.UpdateCamera camera] }, env s camera)

end ffi

namespace consts

/-- Projection kind as re-exported through `crate::consts`.  Modelled from
the spec: the `consts` module is not under `src/`; it mirrors the ffi enum
with identical discriminants, so the `transmute` between the two in
`camera_type` is the identity. -/
abbrev CameraType := ffi.CameraType

/-- Camera control mode passed to `SetCameraMode`.  Modelled from the spec:
a mode enumeration coerced to its integer representation at the boundary. -/
inductive CameraMode where
  | CAMERA_CUSTOM
  | CAMERA_FREE
  | CAMERA_ORBITAL
  | CAMERA_FIRST_PERSON
  | CAMERA_THIRD_PERSON
deriving DecidableEq, Repr

/-- Integer representation of a camera mode (the `as i32` coercion on the
enum discriminant). -/
def CameraMode.toI32 : CameraMode → Int
  | .CAMERA_CUSTOM => 0
  | .CAMERA_FREE => 1
  | .CAMERA_ORBITAL => 2
  | .CAMERA_FIRST_PERSON => 3
  | .CAMERA_THIRD_PERSON => 4

/-- Keyboard key.  Modelled from the spec: the key enumeration is passed as
an integer; a key is identified by its non-negative integer key code and
the `as i32` coercion yields that code. -/
structure KeyboardKey where
  code : Nat
deriving DecidableEq, Repr

/-- Integer representation of a keyboard key (the `as i32` coercion on the
enum discriminant). -/
def KeyboardKey.toI32 (k : KeyboardKey) : Int := Int.ofNat k.code

end consts

/-- Wrapper 3D camera struct, `src/core/camera.rs:8-19`, generic over the
numeric type `T` (`repr(C)`: fields in declaration order). -/
structure Camera3D (T : Type) where
  position : Vec3 T
  target : Vec3 T
  up : Vec3 T
  fovy : F32
  type_ : ffi.CameraType
deriving DecidableEq, Repr

/-- Wrapper 2D camera struct, `src/core/camera.rs:55-65`. -/
structure Camera2D (T : Type) where
  offset : Vec2 T
  target : Vec2 T
  rotation : F32
  zoom : F32
deriving DecidableEq, Repr

/-- By-value conversion wrapper-to-native, `src/core/camera.rs:31-38`, at
`T = f32`: a `transmute` of the `repr(C)` struct reinterprets each field's
bits in place, so the three vectors and `fovy` carry over unchanged and the
enum tag's 32-bit representation is read as the `i32` field. -/
def Camera3D.intoFfi (c : Camera3D F32) : ffi.Camera3D :=
  { position := c.position, target := c.target, up := c.up,
    fovy := c.fovy, type_ := u32AsI32 c.type_.toU32 }

/-- By-reference conversion wrapper-to-native, `src/core/camera.rs:40-53`:
an explicit field-by-field copy, writing the tag as
`(self.type_ as u32) as i32`. -/
def Camera3D.refIntoFfi (c : Camera3D F32) : ffi.Camera3D :=
  { position := c.position, target := c.target, up := c.up,
    fovy := c.fovy, type_ := u32AsI32 c.type_.toU32 }

/-- Conversion native-to-wrapper, `src/core/camera.rs:22-29`, at `T = f32`:
the `transmute` reinterprets fields in place; reading the stored 32-bit tag
back as the projection-kind enum is defined only on the declared
discriminants (undefined behaviour, modelled as `none`, elsewhere). -/
def Camera3D.fromFfi? (v : ffi.Camera3D) : Option (Camera3D F32) :=
  (ffi.CameraType.fromInt? v.type_).map fun t =>
    { position := v.position, target := v.target, up := v.up,
      fovy := v.fovy, type_ := t }

/-- By-value conversion wrapper-to-native for 2D cameras,
`src/core/camera.rs:76-83`, at `T = f32`: the `transmute` reinterprets each
field's bits in place; every field carries over unchanged. -/
def Camera2D.intoFfi (c : Camera2D F32) : ffi.Camera2D :=
  { offset := c.offset, target := c.target, rotation := c.rotation, zoom := c.zoom }

/-- Conversion native-to-wrapper for 2D cameras, `src/core/camera.rs:67-74`,
at `T = f32`: the `transmute` reinterprets each field's bits in place; all
fields are plain floats, so the conversion is total. -/
def Camera2D.fromFfi (v : ffi.Camera2D) : Camera2D F32 :=
  { offset := v.offset, target := v.target, rotation := v.rotation, zoom := v.zoom }

/-- Accessor `camera_type`, `src/core/camera.rs:103-105`: transmutes the
stored `ffi::CameraType` into the identical `consts::CameraType`, i.e.
returns the stored tag. -/
def Camera3D.camera_type {T : Type} (c : Camera3D T) : consts.CameraType := c.type_

/-- Factory `Camera3D::perspective`, `src/core/camera.rs:108-121`. -/
def Camera3D.perspective {T : Type}
    (position target up : Vec3 T) (fovy : F32) : Camera3D T :=
  { position := position, target := target, up := up, fovy := fovy,
    type_ := ffi.CameraType.CAMERA_PERSPECTIVE }

/-- Factory `Camera3D::orthographic`, `src/core/camera.rs:124-133`: builds a
perspective camera and overwrites the tag. -/
def Camera3D.orthographic {T : Type}
    (position target up : Vec3 T) (fovy : F32) : Camera3D T :=
  let c := Camera3D.perspective position target up fovy
  { c with type_ := ffi.CameraType.CAMERA_ORTHOGRAPHIC }

/-- Derived `Default` for `Camera2D<f32>` (the `derive(Default)` on
`src/core/camera.rs:56` expands to the field-wise defaults: the zero vector
for `nalgebra::Vec2<f32>` and `+0.0` for `f32`). -/
def Camera2D.defaultF32 : Camera2D F32 :=
  { offset := Vec2.zeroF32, target := Vec2.zeroF32,
    rotation := F32.zero, zoom := F32.zero }

/-- Handle to the initialised library.  Modelled from the spec: its contents
are not under `src/` and no camera operation reads or writes them; an
abstract field stands for that state. -/
structure RaylibHandle where
  state : Nat
deriving DecidableEq, Repr

namespace RaylibHandle

/-- Method `set_camera_mode`, `src/core/camera.rs:139-147`, with its
`impl Into` argument instantiated at the by-value wrapper conversion: calls
the native entry point with the converted camera and the mode coerced to
`i32`.  Takes `&mut self`; the returned handle models `self` after the
call. -/
def set_camera_mode (rl : RaylibHandle) (s : ffi.NativeState)
    (camera : Camera3D F32) (mode : consts.CameraMode) :
    RaylibHandle × ffi.NativeState :=
  (rl, ffi.SetCameraMode s camera.intoFfi mode.toI32)

/-- Method `update_camera`, `src/core/camera.rs:151-160`, at `T = f32`:
converts the camera to the native struct, hands it to the native
`UpdateCamera` routine, and copies the routine's result back through the
native-to-wrapper conversion.  Takes `&self`; the returned handle models
`self` after the call, and the returned option the written-back `*camera`
(`none` models the undefined behaviour of decoding an invalid tag). -/
def update_camera (env : ffi.NativeState → ffi.Camera3D → ffi.Camera3D)
    (rl : RaylibHandle) (s : ffi.NativeState) (camera : Camera3D F32) :
    RaylibHandle × ffi.NativeState × Option (Camera3D F32) :=
  let fficam : ffi.Camera3D := camera.intoFfi
  let r := ffi.UpdateCamera env s fficam
  (rl, r.1, Camera3D.fromFfi? r.2)

/-- Method `set_camera_pan_control`, `src/core/camera.rs:164-168`. -/
def set_camera_pan_control (rl : RaylibHandle) (s : ffi.NativeState)
    (pan_key : consts.KeyboardKey) : RaylibHandle × ffi.NativeState :=
  (rl, ffi.SetCameraPanControl s pan_key.toI32)

/-- Method `set_camera_alt_control`, `src/core/camera.rs:172-176`. -/
def set_camera_alt_control (rl : RaylibHandle) (s : ffi.NativeState)
    (alt_key : consts.KeyboardKey) : RaylibHandle × ffi.NativeState :=
  (rl, ffi.SetCameraAltControl s alt_key.toI32)

/-- Method `set_camera_smooth_zoom_control`, `src/core/camera.rs:180-184`. -/
def set_camera_smooth_zoom_control (rl : RaylibHandle) (s : ffi.NativeState)
    (sz_key : consts.KeyboardKey) : RaylibHandle × ffi.NativeState :=
  (rl, ffi.SetCameraSmoothZoomControl s sz_key.toI32)

/-- Method `set_camera_move_controls`, `src/core/camera.rs:188-207`. -/
def set_camera_move_controls (rl : RaylibHandle) (s : ffi.NativeState)
    (front_key back_key right_key left_key up_key down_key : consts.KeyboardKey) :
    RaylibHandle × ffi.NativeState :=
  (rl, ffi.SetCameraMoveControls s front_key.toI32 back_key.toI32 right_key.toI32
        left_key.toI32 up_key.toI32 down_key.toI32)

end RaylibHandle

/-! ### Sample values used by the witness theorems -/

/-- Sample 3D vector with distinct component bit patterns. -/
def sampleVec3 : Vec3 F32 := ⟨⟨1⟩, ⟨2⟩, ⟨3⟩⟩

/-- Sample 3D vector with all components zero (a degenerate up vector). -/
def zeroVec3 : Vec3 F32 := ⟨F32.zero, F32.zero, F32.zero⟩

/-- Sample wrapper 3D camera. -/
def sampleCam3 : Camera3D F32 :=
  Camera3D.perspective sampleVec3 sampleVec3 sampleVec3 ⟨4⟩

/-- Sample native 3D camera carrying the orthographic tag. -/
def sampleFfiCam3 : ffi.Camera3D := ⟨sampleVec3, sampleVec3, sampleVec3, ⟨4⟩, 1⟩

/-- Sample wrapper 2D camera. -/
def sampleCam2 : Camera2D F32 := ⟨⟨⟨5⟩, ⟨6⟩⟩, ⟨⟨7⟩, ⟨8⟩⟩, ⟨9⟩, ⟨10⟩⟩

/-- Sample native 2D camera. -/
def sampleFfiCam2 : ffi.Camera2D := ⟨⟨⟨5⟩, ⟨6⟩⟩, ⟨⟨7⟩, ⟨8⟩⟩, ⟨9⟩, ⟨10⟩⟩

/-- Sample native state with empty call log. -/
def sampleState : ffi.NativeState :=
  ⟨0, sampleFfiCam3, 0, 0, 0, 0, 0, 0, 0, 0, 0, []⟩

/-- Sample keyboard key (key code 65, the letter A). -/
def sampleKey : consts.KeyboardKey := ⟨65⟩

/-- Sample native update behaviour that returns the camera unchanged. -/
def idEnv : ffi.NativeState → ffi.Camera3D → ffi.Camera3D := fun _ c => c

/-! ### Helper lemmas -/

/-- Decoding the stored 32-bit representation of a projection-kind tag
recovers the tag. -/
theorem ffi.CameraType.fromInt_encode (t : ffi.CameraType) :
    ffi.CameraType.fromInt? (u32AsI32 t.toU32) = some t := by
  cases t <;> rfl

/-- A 32-bit tag that decodes to a projection kind is exactly that kind's
stored representation. -/
theorem ffi.CameraType.fromInt_inv {n : Int} {t : ffi.CameraType}
    (h : ffi.CameraType.fromInt? n = some t) : n = u32AsI32 t.toU32 := by
  unfold ffi.CameraType.fromInt? at h
  split_ifs at h with h0 h1
  · simp only [Option.some.injEq] at h
    subst h
    simpa [u32AsI32, ffi.CameraType.toU32] using h0
  · simp only [Option.some.injEq] at h
    subst h
    simpa [u32AsI32, ffi.CameraType.toU32] using h1

/-- When the native update behaviour preserves the stored tag, the written-back
wrapper camera is defined and carries the original projection kind together
with the fields the native routine produced. -/
theorem update_camera_some_of_tag_preserving
    (env : ffi.NativeState → ffi.Camera3D → ffi.Camera3D)
    (henv : ∀ st c, (env st c).type_ = c.type_)
    (rl : RaylibHandle) (s : ffi.NativeState) (camera : Camera3D F32) :
    (RaylibHandle.update_camera env rl s camera).2.2 =
      some { position := (env s camera.intoFfi).position,
             target := (env s camera.intoFfi).target,
             up := (env s camera.intoFfi).up,
             fovy := (env s camera.intoFfi).fovy,
             type_ := camera.type_ } := by
  have h1 : ffi.CameraType.fromInt? (env s camera.intoFfi).type_ = some camera.type_ := by
    rw [henv s camera.intoFfi]
    exact ffi.CameraType.fromInt_encode camera.type_
  simp [RaylibHandle.update_camera, ffi.UpdateCamera, Camera3D.fromFfi?, h1]

/-! ### Claim theorems -/

/-- C1: round-trip conversion between wrapper and native camera structs is
the identity in both directions at `T = f32`: a wrapper `Camera3D` survives
the trip through the native struct unchanged, a native `Camera3D` whose
stored tag decodes to a projection kind (any other tag makes the enum
transmute undefined) survives the trip through the wrapper unchanged, and
both directions are unconditional identities for `Camera2D`. -/
theorem camera_roundtrip_identity
    (c3 : Camera3D F32) (v3 : ffi.Camera3D) (c2 : Camera2D F32) (v2 : ffi.Camera2D)
    (t : ffi.CameraType) (hv : ffi.CameraType.fromInt? v3.type_ = some t) :
    Camera3D.fromFfi? c3.intoFfi = some c3 ∧
    (Camera3D.fromFfi? v3).map Camera3D.intoFfi = some v3 ∧
    Camera2D.fromFfi c2.intoFfi = c2 ∧
    Camera2D.intoFfi (Camera2D.fromFfi v2) = v2 := by
  refine ⟨?_, ?_, rfl, rfl⟩
  · simp [Camera3D.fromFfi?, Camera3D.intoFfi, ffi.CameraType.fromInt_encode]
  · have hn := ffi.CameraType.fromInt_inv hv
    simp [Camera3D.fromFfi?, hv, Camera3D.intoFfi, ← hn]

/-- Witness for C1 at concrete cameras, the native one carrying tag `1`. -/
theorem camera_roundtrip_identity_witness :
    ffi.CameraType.fromInt? sampleFfiCam3.type_ =
      some ffi.CameraType.CAMERA_ORTHOGRAPHIC ∧
    (Camera3D.fromFfi? sampleCam3.intoFfi = some sampleCam3 ∧
     (Camera3D.fromFfi? sampleFfiCam3).map Camera3D.intoFfi = some sampleFfiCam3 ∧
     Camera2D.fromFfi sampleCam2.intoFfi = sampleCam2 ∧
     Camera2D.intoFfi (Camera2D.fromFfi sampleFfiCam2) = sampleFfiCam2) :=
  ⟨by decide,
   camera_roundtrip_identity sampleCam3 sampleFfiCam3 sampleCam2 sampleFfiCam2
     ffi.CameraType.CAMERA_ORTHOGRAPHIC (by decide)⟩

/-- C2: the `perspective` factory tags its result `CAMERA_PERSPECTIVE` and
the `orthographic` factory tags its result `CAMERA_ORTHOGRAPHIC`, as
observed through `camera_type`, and both store the provided position,
target, up and fovy arguments unchanged. -/
theorem factories_set_tag_and_store_args {T : Type}
    (p t u : Vec3 T) (f : F32) :
    (Camera3D.perspective p t u f).camera_type = ffi.CameraType.CAMERA_PERSPECTIVE ∧
    (Camera3D.orthographic p t u f).camera_type = ffi.CameraType.CAMERA_ORTHOGRAPHIC ∧
    (Camera3D.perspective p t u f).position = p ∧
    (Camera3D.perspective p t u f).target = t ∧
    (Camera3D.perspective p t u f).up = u ∧
    (Camera3D.perspective p t u f).fovy = f ∧
    (Camera3D.orthographic p t u f).position = p ∧
    (Camera3D.orthographic p t u f).target = t ∧
    (Camera3D.orthographic p t u f).up = u ∧
    (Camera3D.orthographic p t u f).fovy = f :=
  ⟨rfl, rfl, rfl, rfl, rfl, rfl, rfl, rfl, rfl, rfl⟩

/-- C3: `update_camera` leaves the projection-kind tag of the wrapper camera
unchanged, for every behaviour of the native `UpdateCamera` routine that
acts only on position, target and up (formally: every behaviour preserving
the stored tag field). -/
theorem update_camera_preserves_tag
    (env : ffi.NativeState → ffi.Camera3D → ffi.Camera3D)
    (henv : ∀ st c, (env st c).type_ = c.type_)
    (rl : RaylibHandle) (s : ffi.NativeState) (camera : Camera3D F32) :
    ∃ camera2 : Camera3D F32,
      (RaylibHandle.update_camera env rl s camera).2.2 = some camera2 ∧
      camera2.camera_type = camera.camera_type :=
  ⟨_, update_camera_some_of_tag_preserving env henv rl s camera, rfl⟩

/-- Witness for C3 with the identity native behaviour at concrete inputs. -/
theorem update_camera_preserves_tag_witness :
    (∀ st c, (idEnv st c).type_ = c.type_) ∧
    ∃ camera2 : Camera3D F32,
      (RaylibHandle.update_camera idEnv ⟨0⟩ sampleState sampleCam3).2.2 = some camera2 ∧
      camera2.camera_type = sampleCam3.camera_type :=
  ⟨fun _ _ => rfl,
   update_camera_preserves_tag idEnv (fun _ _ => rfl) ⟨0⟩ sampleState sampleCam3⟩

/-- C4: on identical arguments, `orthographic` and `perspective` agree on
every field except the projection-kind tag, and on that tag they differ. -/
theorem orthographic_differs_only_in_tag {T : Type}
    (p t u : Vec3 T) (f : F32) :
    (Camera3D.orthographic p t u f).position = (Camera3D.perspective p t u f).position ∧
    (Camera3D.orthographic p t u f).target = (Camera3D.perspective p t u f).target ∧
    (Camera3D.orthographic p t u f).up = (Camera3D.perspective p t u f).up ∧
    (Camera3D.orthographic p t u f).fovy = (Camera3D.perspective p t u f).fovy ∧
    (Camera3D.orthographic p t u f).type_ ≠ (Camera3D.perspective p t u f).type_ := by
  refine ⟨rfl, rfl, rfl, rfl, ?_⟩
  intro h
  exact ffi.CameraType.noConfusion h

/-- C5: every public wrapper operation is total and returns no error value,
for arbitrary input bit patterns (including NaN fovy and degenerate up
vectors): the factories store fovy and up uninterpreted, the conversion of
any factory-built camera is defined and round-trips, each setter forwards
its mode or key argument as the coerced integer with no validation, and
`update_camera` succeeds for every tag-preserving behaviour of the native
routine. -/
theorem operations_total_no_validation
    (p t u : Vec3 F32) (f : F32) (rl : RaylibHandle) (s : ffi.NativeState)
    (mode : consts.CameraMode) (k k1 k2 k3 k4 k5 k6 : consts.KeyboardKey)
    (env : ffi.NativeState → ffi.Camera3D → ffi.Camera3D)
    (henv : ∀ st c, (env st c).type_ = c.type_) :
    (Camera3D.perspective p t u f).fovy = f ∧
    (Camera3D.perspective p t u f).up = u ∧
    (Camera3D.orthographic p t u f).fovy = f ∧
    (Camera3D.orthographic p t u f).up = u ∧
    Camera3D.fromFfi? (Camera3D.perspective p t u f).intoFfi =
      some (Camera3D.perspective p t u f) ∧
    ((RaylibHandle.set_camera_mode rl s (Camera3D.perspective p t u f) mode).2).cameraMode =
      mode.toI32 ∧
    ((RaylibHandle.set_camera_pan_control rl s k).2).panControl = k.toI32 ∧
    ((RaylibHandle.set_camera_alt_control rl s k).2).altControl = k.toI32 ∧
    ((RaylibHandle.set_camera_smooth_zoom_control rl s k).2).smoothZoomControl = k.toI32 ∧
    ((RaylibHandle.set_camera_move_controls rl s k1 k2 k3 k4 k5 k6).2).moveFront = k1.toI32 ∧
    ((RaylibHandle.set_camera_move_controls rl s k1 k2 k3 k4 k5 k6).2).moveBack = k2.toI32 ∧
    ((RaylibHandle.set_camera_move_controls rl s k1 k2 k3 k4 k5 k6).2).moveRight = k3.toI32 ∧
    ((RaylibHandle.set_camera_move_controls rl s k1 k2 k3 k4 k5 k6).2).moveLeft = k4.toI32 ∧
    ((RaylibHandle.set_camera_move_controls rl s k1 k2 k3 k4 k5 k6).2).moveUp = k5.toI32 ∧
    ((RaylibHandle.set_camera_move_controls rl s k1 k2 k3 k4 k5 k6).2).moveDown = k6.toI32 ∧
    ∃ c2 : Camera3D F32,
      (RaylibHandle.update_camera env rl s (Camera3D.perspective p t u f)).2.2 = some c2 := by
  refine ⟨rfl, rfl, rfl, rfl, ?_, rfl, rfl, rfl, rfl, rfl, rfl, rfl, rfl, rfl, rfl,
    ⟨_, update_camera_some_of_tag_preserving env henv rl s (Camera3D.perspective p t u f)⟩⟩
  simp [Camera3D.fromFfi?, Camera3D.intoFfi, ffi.CameraType.fromInt_encode]

/-- Witness for C5 at a degenerate zero up vector and a NaN fovy bit
pattern, with the identity native behaviour. -/
theorem operations_total_no_validation_witness :
    (∀ st c, (idEnv st c).type_ = c.type_) ∧
    ((Camera3D.perspective zeroVec3 zeroVec3 zeroVec3 F32.nanBits).fovy = F32.nanBits ∧
     (Camera3D.perspective zeroVec3 zeroVec3 zeroVec3 F32.nanBits).up = zeroVec3 ∧
     (Camera3D.orthographic zeroVec3 zeroVec3 zeroVec3 F32.nanBits).fovy = F32.nanBits ∧
     (Camera3D.orthographic zeroVec3 zeroVec3 zeroVec3 F32.nanBits).up = zeroVec3 ∧
     Camera3D.fromFfi? (Camera3D.perspective zeroVec3 zeroVec3 zeroVec3 F32.nanBits).intoFfi =
       some (Camera3D.perspective zeroVec3 zeroVec3 zeroVec3 F32.nanBits) ∧
     ((RaylibHandle.set_camera_mode ⟨0⟩ sampleState
         (Camera3D.perspective zeroVec3 zeroVec3 zeroVec3 F32.nanBits)
         consts.CameraMode.CAMERA_FREE).2).cameraMode =
       consts.CameraMode.CAMERA_FREE.toI32 ∧
     ((RaylibHandle.set_camera_pan_control ⟨0⟩ sampleState sampleKey).2).panControl =
       sampleKey.toI32 ∧
     ((RaylibHandle.set_camera_alt_control ⟨0⟩ sampleState sampleKey).2).altControl =
       sampleKey.toI32 ∧
     ((RaylibHandle.set_camera_smooth_zoom_control ⟨0⟩ sampleState sampleKey).2).smoothZoomControl =
       sampleKey.toI32 ∧
     ((RaylibHandle.set_camera_move_controls ⟨0⟩ sampleState sampleKey sampleKey sampleKey
         sampleKey sampleKey sampleKey).2).moveFront = sampleKey.toI32 ∧
     ((RaylibHandle.set_camera_move_controls ⟨0⟩ sampleState sampleKey sampleKey sampleKey
         sampleKey sampleKey sampleKey).2).moveBack = sampleKey.toI32 ∧
     ((RaylibHandle.set_camera_move_controls ⟨0⟩ sampleState sampleKey sampleKey sampleKey
         sampleKey sampleKey sampleKey).2).moveRight = sampleKey.toI32 ∧
     ((RaylibHandle.set_camera_move_controls ⟨0⟩ sampleState sampleKey sampleKey sampleKey
         sampleKey sampleKey sampleKey).2).moveLeft = sampleKey.toI32 ∧
     ((RaylibHandle.set_camera_move_controls ⟨0⟩ sampleState sampleKey sampleKey sampleKey
         sampleKey sampleKey sampleKey).2).moveUp = sampleKey.toI32 ∧
     ((RaylibHandle.set_camera_move_controls ⟨0⟩ sampleState sampleKey sampleKey sampleKey
         sampleKey sampleKey sampleKey).2).moveDown = sampleKey.toI32 ∧
     ∃ c2 : Camera3D F32,
       (RaylibHandle.update_camera idEnv ⟨0⟩ sampleState
         (Camera3D.perspective zeroVec3 zeroVec3 zeroVec3 F32.nanBits)).2.2 = some c2) :=
  ⟨fun _ _ => rfl,
   operations_total_no_validation zeroVec3 zeroVec3 zeroVec3 F32.nanBits ⟨0⟩ sampleState
     consts.CameraMode.CAMERA_FREE sampleKey sampleKey sampleKey sampleKey sampleKey
     sampleKey sampleKey idEnv (fun _ _ => rfl)⟩

/-- C6: the by-value wrapper-to-native conversion (the memory
reinterpretation of `src/core/camera.rs:31-38`) and the by-reference
conversion (the explicit field-by-field copy of `src/core/camera.rs:40-53`)
produce equal native camera structs for every `Camera3D<f32>` value. -/
theorem intoffi_byvalue_eq_byref (c : Camera3D F32) :
    c.intoFfi = c.refIntoFfi := rfl

/-- C7: `update_camera` hands exactly one native `UpdateCamera` call the
converted current camera, and the wrapper camera afterwards is the wrapper
conversion of whatever native struct the routine produced, for every
behaviour of the routine. -/
theorem update_camera_single_call_copyback
    (env : ffi.NativeState → ffi.Camera3D → ffi.Camera3D)
    (rl : RaylibHandle) (s : ffi.NativeState) (camera : Camera3D F32) :
    RaylibHandle.update_camera env rl s camera =
      (rl,
       { s with log := s.log ++ [ffi.NativeCall.UpdateCamera camera.intoFfi] },
       Camera3D.fromFfi? (env s camera.intoFfi)) :=
  rfl

/-- C8: each configuration method performs exactly one call to its native
entry point, passing every mode or key argument as the enum value coerced
to its integer representation and nothing else. -/
theorem setters_forward_coerced_enums
    (rl : RaylibHandle) (s : ffi.NativeState) (camera : Camera3D F32)
    (mode : consts.CameraMode) (k k1 k2 k3 k4 k5 k6 : consts.KeyboardKey) :
    ((RaylibHandle.set_camera_mode rl s camera mode).2).log =
      s.log ++ [ffi.NativeCall.SetCameraMode camera.intoFfi mode.toI32] ∧
    ((RaylibHandle.set_camera_pan_control rl s k).2).log =
      s.log ++ [ffi.NativeCall.SetCameraPanControl k.toI32] ∧
    ((RaylibHandle.set_camera_alt_control rl s k).2).log =
      s.log ++ [ffi.NativeCall.SetCameraAltControl k.toI32] ∧
    ((RaylibHandle.set_camera_smooth_zoom_control rl s k).2).log =
      s.log ++ [ffi.NativeCall.SetCameraSmoothZoomControl k.toI32] ∧
    ((RaylibHandle.set_camera_move_controls rl s k1 k2 k3 k4 k5 k6).2).log =
      s.log ++ [ffi.NativeCall.SetCameraMoveControls k1.toI32 k2.toI32 k3.toI32
                  k4.toI32 k5.toI32 k6.toI32] :=
  ⟨rfl, rfl, rfl, rfl, rfl⟩

/-- C9: the derived `Default` for `Camera2D<f32>` has zero offset and target
vectors, zero rotation, and zoom equal to `0.0` — the bit pattern of `0.0`,
which differs from the identity zoom `1.0`. -/
theorem camera2d_default_zoom_is_zero :
    Camera2D.defaultF32.offset = Vec2.zeroF32 ∧
    Camera2D.defaultF32.target = Vec2.zeroF32 ∧
    Camera2D.defaultF32.rotation = F32.zero ∧
    Camera2D.defaultF32.zoom = F32.zero ∧
    Camera2D.defaultF32.zoom ≠ F32.one :=
  ⟨rfl, rfl, rfl, rfl, by decide⟩

/-- C10: no camera operation mutates the `RaylibHandle`: `update_camera`
(which takes the handle by shared reference) and the mode and control
setters all leave the handle exactly as it was, their wrapper-visible
effect being confined to the single camera passed to `update_camera`. -/
theorem handle_never_mutated
    (env : ffi.NativeState → ffi.Camera3D → ffi.Camera3D)
    (rl : RaylibHandle) (s : ffi.NativeState) (camera : Camera3D F32)
    (mode : consts.CameraMode) (k k1 k2 k3 k4 k5 k6 : consts.KeyboardKey) :
    (RaylibHandle.update_camera env rl s camera).1 = rl ∧
    (RaylibHandle.set_camera_mode rl s camera mode).1 = rl ∧
    (RaylibHandle.set_camera_pan_control rl s k).1 = rl ∧
    (RaylibHandle.set_camera_alt_control rl s k).1 = rl ∧
    (RaylibHandle.set_camera_smooth_zoom_control rl s k).1 = rl ∧
    (RaylibHandle.set_camera_move_controls rl s k1 k2 k3 k4 k5 k6).1 = rl :=
  ⟨rfl, rfl, rfl, rfl, rfl, rfl⟩
